import Mathlib

/-!
Verification development for the youtube-transcript-mcp repository.

Shallow embedding of the three core components:
  - the URL Resolver (src/utils/url-normalize.ts),
  - the Retry-Fetch Protocol (src/lib/youtube.ts),
  - the Cache Layer and Transcript Resolution Strategy
    (src/utils/cache.ts, src/tools/transcript.ts).

The external caption-fetch capability is modelled as an oracle parameter;
the external key-value store is modelled as an association list threaded
through the resolution functions, together with logs of the cache writes
and upstream fetch calls performed, so that frame properties about them
can be stated.
-/

/- ## String primitives

JavaScript string operations used by the source (`includes`, `startsWith`,
`toLowerCase`, `split`, `join`, `trim`, regex newline collapsing) are
modelled over `List Char`.  `toLowerCase` is modelled for the ASCII range,
which covers every string the source matches against. -/

/-- Boolean test that the second list is an initial segment of the first. -/
def startsWithL : List Char → List Char → Bool
  | _, [] => true
  | [], _ :: _ => false
  | c :: cs, p :: ps => c = p && startsWithL cs ps

/-- Boolean substring test on character lists (JavaScript `String.prototype.includes`). -/
def containsSubL : List Char → List Char → Bool
  | [], pat => startsWithL [] pat
  | c :: rest, pat => startsWithL (c :: rest) pat || containsSubL rest pat

/-- JavaScript `haystack.includes(needle)`. -/
def strContains (s pat : String) : Bool := containsSubL s.data pat.data

/-- JavaScript `s.startsWith(pat)`. -/
def strStartsWith (s pat : String) : Bool := startsWithL s.data pat.data

/-- ASCII lower-casing of one character (JavaScript `toLowerCase` restricted to ASCII). -/
def lowerChar (c : Char) : Char :=
  if 65 ≤ c.toNat ∧ c.toNat ≤ 90 then Char.ofNat (c.toNat + 32) else c

/-- JavaScript `s.toLowerCase()` for ASCII strings. -/
def toLowerStr (s : String) : String := String.mk (s.data.map lowerChar)

/-- Splitting a character list at every occurrence of a separator
(JavaScript `String.prototype.split` semantics: empty fields are kept). -/
def splitOnCharL (sep : Char) : List Char → List (List Char)
  | [] => [[]]
  | c :: rest =>
    if c = sep then [] :: splitOnCharL sep rest
    else
      match splitOnCharL sep rest with
      | [] => [[c]]
      | g :: gs => (c :: g) :: gs

/-- JavaScript `s.split(sep)` for a single-character separator. -/
def splitOnChar (s : String) (sep : Char) : List String :=
  (splitOnCharL sep s.data).map String.mk

/-- JavaScript `array.join(' ')`. -/
def joinSpace : List String → String
  | [] => ""
  | [s] => s
  | s :: rest => s ++ " " ++ joinSpace rest

/-- JavaScript `array.join(', ')`. -/
def joinCommaSp : List String → String
  | [] => ""
  | [s] => s
  | s :: rest => s ++ ", " ++ joinCommaSp rest

/-- The whitespace characters trimmed by JavaScript `trim` that can occur here. -/
def isWsChar (c : Char) : Bool := c = ' ' || c = '\t' || c = '\n' || c = '\r'

/-- Removal of leading and trailing whitespace (JavaScript `s.trim()`). -/
def trimWsL (l : List Char) : List Char :=
  ((l.dropWhile isWsChar).reverse.dropWhile isWsChar).reverse

/-- Collapsing every run of newline characters to a single newline
(the regex replacement `replace(/\n+/g, newline)`); the flag records
whether the previous kept character was a newline. -/
def collapseNewlinesAux : Bool → List Char → List Char
  | _, [] => []
  | prevNl, c :: rest =>
    if c = '\n' then
      if prevNl then collapseNewlinesAux true rest
      else '\n' :: collapseNewlinesAux true rest
    else c :: collapseNewlinesAux false rest

/- ## URL Resolver (src/utils/url-normalize.ts) -/

/-- The fields of a parsed URL that url-normalize.ts reads from the
url-parse library: hostname, pathname and the parsed query pairs. -/
structure ParsedUrl where
  hostname : String
  pathname : String
  query : List (String × String)
deriving Repr, DecidableEq

/-- Scanning for the first `://` of a URL string; returns what follows it. -/
def afterSchemeSep : List Char → Option (List Char)
  | [] => none
  | ':' :: '/' :: '/' :: rest => some rest
  | _ :: rest => afterSchemeSep rest

/-- Splitting a character list at the first character from `stops`,
keeping that character in the second component. -/
def takeUntil (stops : List Char) : List Char → List Char × List Char
  | [] => ([], [])
  | c :: rest =>
    if stops.contains c then ([], c :: rest)
    else
      let (a, b) := takeUntil stops rest
      (c :: a, b)

/-- One `key=value` query fragment; a fragment without `=` gets the empty value. -/
def parseQueryPart (part : List Char) : String × String :=
  let (k, rest) := takeUntil ['='] part
  match rest with
  | _ :: v => (String.mk k, String.mk v)
  | [] => (String.mk k, "")

/-- The query pairs of a query string (the querystringify parser of
url-parse: `&`-separated fragments, empty fragments skipped; on duplicate
keys the first occurrence wins, realised here by first-match lookup). -/
def parseQueryPairs (l : List Char) : List (String × String) :=
  (splitOnCharL '&' l).filterMap
    (fun part => if part.isEmpty then none else some (parseQueryPart part))

/-- Model of the url-parse collaborator (`new Url(url, true)`) for absolute
URLs: hostname lower-cased with any port dropped, pathname up to the query
or fragment, query parsed into pairs.  Credentials and percent-decoding are
not modelled; a string without `://` parses with an empty hostname. -/
def parseUrl (url : String) : ParsedUrl :=
  match afterSchemeSep url.data with
  | none => { hostname := "", pathname := url, query := [] }
  | some rest =>
    let (hostPort, afterHost) := takeUntil ['/', '?', '#'] rest
    let (host, _) := takeUntil [':'] hostPort
    let (path, afterPath) := takeUntil ['?', '#'] afterHost
    let query :=
      match afterPath with
      | '?' :: qs => parseQueryPairs (takeUntil ['#'] qs).1
      | _ => []
    { hostname := toLowerStr (String.mk host), pathname := String.mk path, query := query }

/-- The `v` query parameter when present and non-empty (the source guards
reads of `query.v` by JavaScript truthiness, so an empty value counts as
absent). -/
def queryV (p : ParsedUrl) : Option String :=
  match List.lookup "v" p.query with
  | some s => if s = "" then none else some s
  | none => none

/-- The path segment at index `i` of `pathname.split(sep)` when present and
non-empty (the source returns `parts[i] || null`). -/
def pathSegment (p : ParsedUrl) (i : Nat) : Option String :=
  match (splitOnChar p.pathname '/')[i]? with
  | some s => if s = "" then none else some s
  | none => none

/-- `extractVideoIdFromParsedUrl` of url-normalize.ts.  A `/watch` path
without a usable `v` parameter returns none here; in the source it falls
through the remaining rules, none of which can match a `/watch` path, so
the outcomes agree. -/
def extractVideoIdFromParsedUrl (p : ParsedUrl) : Option String :=
  if p.hostname = "youtu.be" then
    pathSegment p 1
  else if strStartsWith p.pathname "/watch" then
    queryV p
  else if strStartsWith p.pathname "/live/" then
    pathSegment p 2
  else if strStartsWith p.pathname "/embed/" then
    pathSegment p 2
  else if strStartsWith p.pathname "/shorts/" then
    pathSegment p 2
  else if (queryV p).isSome && (p.pathname = "/" || p.pathname = "") then
    queryV p
  else
    none

/-- The hostname allow-list of `isValidYouTubeUrl`. -/
def validHostnames : List String :=
  ["youtube.com", "www.youtube.com", "m.youtube.com", "youtu.be",
   "youtube.co.uk", "youtube.de", "youtube.fr", "youtube.jp", "youtube.ca",
   "youtube.es", "youtube.br", "youtube.com.br", "youtube.co.in", "youtube.co.kr"]

/-- `isValidYouTubeUrl` of url-normalize.ts: empty input is invalid, the
`www.`-stripped hostname must be on the allow-list, and a video ID must be
extractable from the parsed URL. -/
def isValidYouTubeUrl (url : String) : Bool :=
  if url = "" then false
  else
    let parsedUrl := parseUrl url
    let hostname :=
      if strStartsWith parsedUrl.hostname "www." then String.mk (parsedUrl.hostname.data.drop 4)
      else parsedUrl.hostname
    if (validHostnames.contains hostname) = false then false
    else (extractVideoIdFromParsedUrl parsedUrl).isSome

/-- `extractVideoId` of url-normalize.ts: parses the URL and extracts the
ID with no hostname check.  The url-parse model is total, so the
catch-all branch of the source (parser throw) does not arise. -/
def extractVideoId (url : String) : Option String :=
  if url = "" then none
  else extractVideoIdFromParsedUrl (parseUrl url)

/-- `normalizeYouTubeUrl` of url-normalize.ts: rewrite to the canonical
watch URL when an ID is extractable, otherwise return the input unchanged. -/
def normalizeYouTubeUrl (url : String) : String :=
  match extractVideoId url with
  | some videoId => "https://www.youtube.com/watch?v=" ++ videoId
  | none => url

/- ## Error taxonomy (src/lib/youtube.ts)

The custom error classes of the source become constructors; a plain
JavaScript `Error` becomes the `generic` constructor.  Every constructor
carries the message of the underlying error object. -/

/-- Classified errors of the Retry-Fetch Protocol: the four custom error
classes of src/lib/youtube.ts plus a generic `Error`. -/
inductive YTError where
  | videoUnavailable (msg : String)
  | rateLimit (msg : String)
  | networkError (msg : String)
  | invalidVideo (msg : String)
  | generic (msg : String)
deriving Repr, DecidableEq

/-- The `message` property of the underlying error object. -/
def YTError.message : YTError → String
  | .videoUnavailable m => m
  | .rateLimit m => m
  | .networkError m => m
  | .invalidVideo m => m
  | .generic m => m

namespace Youtube

/-- `sanitizeTranscriptText` of src/lib/youtube.ts: empty input maps to the
empty string; otherwise runs of newlines are collapsed to one newline and
both ends are trimmed. -/
def sanitizeTranscriptText (transcript : String) : String :=
  if transcript = "" then ""
  else String.mk (trimWsL (collapseNewlinesAux false transcript.data))

/-- `handleYouTubeErrors` of src/lib/youtube.ts: maps a classified or
generic error to the user-facing message string. -/
def handleYouTubeErrors : YTError → String
  | .videoUnavailable _ => "No transcript available for this video."
  | .rateLimit _ => "Service temporarily busy, try again in a few minutes."
  | .networkError _ => "Unable to fetch transcript, please try again."
  | .invalidVideo _ => "Video not found or private."
  | .generic msg =>
    if strContains msg "not found or private" || strContains msg "Invalid video ID" then
      "Video not found or private."
    else if strContains msg "transcripts disabled" then
      "Transcripts are disabled for this video."
    else if strContains msg "No transcript found" then
      "No transcript available for this video."
    else
      "An unexpected error occurred while fetching the transcript."

/-- Maximum number of upstream attempts of the retry loop. -/
def MAX_RETRIES : Nat := 3

/-- Initial backoff delay in milliseconds. -/
def INITIAL_BACKOFF_MS : Nat := 1000

/-- One outcome of the opaque caption-fetch capability
(`YoutubeTranscript.fetchTranscript`): the ordered caption segment texts,
or a failure carrying the upstream error message. -/
inductive FetchOutcome where
  | success (segments : List String)
  | failure (msg : String)
deriving Repr, DecidableEq

instance {ε α : Type} [DecidableEq ε] [DecidableEq α] : DecidableEq (Except ε α) := fun
  | .ok a, .ok b => decidable_of_iff (a = b) (by simp)
  | .ok _, .error _ => .isFalse (by simp)
  | .error _, .ok _ => .isFalse (by simp)
  | .error a, .error b => decidable_of_iff (a = b) (by simp)

/-- Result of the retry loop together with the number of upstream calls
it performed. -/
structure FetchResult where
  result : Except YTError String
  calls : Nat
deriving Repr, DecidableEq

/-- The network-shaped test of the retry loop: message contains
`timed out`, `network` or `ECONNRESET`. -/
def isNetworkShapedError (msg : String) : Bool :=
  strContains msg "timed out" || strContains msg "network" || strContains msg "ECONNRESET"

/-- The rate-limit-shaped test of the retry loop: lower-cased message
contains `too many requests`, or the message contains `429` or `403`. -/
def isRateLimitShapedError (msg : String) : Bool :=
  strContains (toLowerStr msg) "too many requests" || strContains msg "429" ||
  strContains msg "403"

/-- The no-transcript-shaped test of the retry loop. -/
def isNoTranscriptShapedError (msg : String) : Bool :=
  strContains msg "No transcript found for this video" ||
  strContains msg "transcripts are disabled"

/-- The invalid-video-shaped test of the retry loop. -/
def isInvalidVideoShapedError (msg : String) : Bool :=
  strContains msg "This video is unavailable" ||
  strContains msg "Video not found or private" ||
  strContains msg "Invalid video ID"

/-- The retry loop of `getTranscript` in src/lib/youtube.ts.  The oracle
`fetch` gives the outcome of the upstream call at each attempt index; the
fuel argument equals `MAX_RETRIES - attempts`, mirroring the
`while (attempts < MAX_RETRIES)` condition.  Backoff delays are carried
(`backoff`, doubling as in the source) but the waiting itself is not
observable.  The `calls` field counts upstream calls performed. -/
def getTranscriptGo (fetch : Nat → FetchOutcome) (videoId language : String) :
    Nat → Nat → Nat → FetchResult
  | 0, _, _ =>
    { result := .error (.generic ("Failed to fetch transcript for " ++ videoId ++
        " after " ++ toString MAX_RETRIES ++ " attempts.")), calls := 0 }
  | fuel + 1, attempts, backoff =>
    match fetch attempts with
    | .success rawTranscript =>
      { result := .ok (sanitizeTranscriptText (joinSpace rawTranscript)), calls := 1 }
    | .failure msg =>
      let attempts2 := attempts + 1
      if isNetworkShapedError msg then
        if MAX_RETRIES ≤ attempts2 then
          { result := .error (.networkError ("Network error after " ++ toString attempts2 ++
              " attempts: " ++ msg)), calls := 1 }
        else
          let r := getTranscriptGo fetch videoId language fuel attempts2 (backoff * 2)
          { r with calls := r.calls + 1 }
      else if isRateLimitShapedError msg then
        if MAX_RETRIES ≤ attempts2 then
          { result := .error (.rateLimit ("Rate limited after " ++ toString attempts2 ++
              " attempts: " ++ msg)), calls := 1 }
        else
          let r := getTranscriptGo fetch videoId language fuel attempts2 (backoff * 2)
          { r with calls := r.calls + 1 }
      else if isNoTranscriptShapedError msg then
        { result := .error (.videoUnavailable ("No transcript found for " ++ videoId ++
            " (lang: " ++ language ++ "). Transcripts may be disabled.")), calls := 1 }
      else if isInvalidVideoShapedError msg then
        { result := .error (.invalidVideo ("Video " ++ videoId ++
            " not found or is private.")), calls := 1 }
      else if MAX_RETRIES ≤ attempts2 then
        { result := .error (.generic ("Failed to fetch transcript for " ++ videoId ++
            " after " ++ toString MAX_RETRIES ++ " attempts: " ++ msg)), calls := 1 }
      else
        let r := getTranscriptGo fetch videoId language fuel attempts2 (backoff * 2)
        { r with calls := r.calls + 1 }

/-- `getTranscript` of src/lib/youtube.ts: the retry loop started with
zero attempts and the initial backoff. -/
def getTranscript (videoId language : String) (fetch : Nat → FetchOutcome) : FetchResult :=
  getTranscriptGo fetch videoId language MAX_RETRIES 0 INITIAL_BACKOFF_MS

end Youtube

/- ## Cache Layer (src/utils/cache.ts) and Resolution Strategy (src/tools/transcript.ts)

The Cloudflare KV binding is modelled as an association list inside a
state record, together with a log of the cache writes performed (with
their TTLs) and a log of the upstream fetch calls issued, so that frame
properties about cache keys and upstream traffic can be stated.  The
fire-and-forget analytics counters are side effects outside the core
contract and are not modelled. -/

namespace Tools

/-- TTL of a cached successful transcript (7 days). -/
def SUCCESSFUL_TRANSCRIPT_TTL_SECONDS : Nat := 60 * 60 * 24 * 7

/-- TTL of a cached error entry (5 minutes). -/
def ERROR_RESPONSE_TTL_SECONDS : Nat := 60 * 5

/-- One cache write as performed by `setCachedTranscript`, with the TTL
chosen from the error flag. -/
structure CacheWrite where
  videoId : String
  language : String
  data : String
  isErrorEntry : Bool
  ttlSeconds : Nat
deriving Repr, DecidableEq

/-- The environment and store state threaded through the resolution:
whether the KV binding is present, the store contents, and logs of the
writes and upstream fetch calls performed. -/
structure ResState where
  hasCache : Bool
  cache : List ((String × String) × String)
  writes : List CacheWrite
  calls : List (String × String)
deriving Repr, DecidableEq

/-- `getCachedTranscript` of src/utils/cache.ts: a miss when the binding
is absent, otherwise the newest value stored under `(videoId, language)`. -/
def getCachedTranscript (st : ResState) (videoId language : String) : Option String :=
  if st.hasCache then List.lookup (videoId, language) st.cache else none

/-- `setCachedTranscript` of src/utils/cache.ts: a no-op when the binding
is absent, otherwise overwrites the entry and logs the write with the TTL
picked by the error flag. -/
def setCachedTranscript (st : ResState) (videoId language data : String)
    (isErrorEntry : Bool) : ResState :=
  if st.hasCache then
    let w : CacheWrite :=
      { videoId := videoId, language := language, data := data,
        isErrorEntry := isErrorEntry,
        ttlSeconds := if isErrorEntry then ERROR_RESPONSE_TTL_SECONDS
                      else SUCCESSFUL_TRANSCRIPT_TTL_SECONDS }
    { st with
      cache := ((videoId, language), data) :: st.cache,
      writes := st.writes ++ [w] }
  else st

/-- Recording one call to the caption-fetch capability. -/
def recordFetchCall (st : ResState) (videoId language : String) : ResState :=
  { st with calls := st.calls ++ [(videoId, language)] }

/-- `isLanguageRelatedError` of src/tools/transcript.ts: false for an
empty message (JavaScript falsiness), otherwise a substring test on the
lower-cased message. -/
def isLanguageRelatedError (error : YTError) : Bool :=
  if error.message = "" then false
  else
    let message := toLowerStr error.message
    strContains message "language" || strContains message "subtitle" ||
    strContains message "caption" || strContains message "transcript" ||
    strContains message "not available" || strContains message "no transcript found"

/-- Annotation prepended when the English fallback replaces the requested
language. -/
def englishFallbackNote (requestedLanguage : String) : String :=
  "[Requested language \x27" ++ requestedLanguage ++
  "\x27 not available, showing English instead]\n\n"

/-- The inner English-fallback try block of `getTranscriptWithFallback`:
check the English cache (a cached error falls through to a fetch), fetch
English on a miss, cache an English success; on an English failure cache
the original error under the requested language and raise the combined
error. -/
def runEnglishFallback (fetch : String → String → Except YTError String)
    (videoId : String) (st : ResState) (requestedLanguage : String) (error : YTError) :
    Except YTError String × ResState :=
  let fetchEnglish : Except YTError String × ResState :=
    let st1 := recordFetchCall st videoId "en"
    match fetch videoId "en" with
    | .ok englishTranscript =>
      let st2 := setCachedTranscript st1 videoId "en" englishTranscript false
      (.ok (englishFallbackNote requestedLanguage ++ englishTranscript), st2)
    | .error englishError =>
      let st2 := setCachedTranscript st1 videoId requestedLanguage
        ("Error: " ++ Youtube.handleYouTubeErrors error) true
      (.error (.generic ("Transcript not available in \x27" ++ requestedLanguage ++
        "\x27 and English fallback failed: " ++
        Youtube.handleYouTubeErrors englishError)), st2)
  match getCachedTranscript st videoId "en" with
  | some cachedEnglish =>
    if strStartsWith cachedEnglish "Error:" = false then
      (.ok (englishFallbackNote requestedLanguage ++ cachedEnglish), st)
    else fetchEnglish
  | none => fetchEnglish

/-- The catch block of `getTranscriptWithFallback`: a language-related
error for a non-English request goes to the English fallback; otherwise
the classified error is cached under the requested language and raised. -/
def handleFallbackFailure (fetch : String → String → Except YTError String)
    (videoId : String) (st : ResState) (requestedLanguage : String) (error : YTError) :
    Except YTError String × ResState :=
  if isLanguageRelatedError error = true ∧ requestedLanguage ≠ "en" then
    runEnglishFallback fetch videoId st requestedLanguage error
  else
    let st1 := setCachedTranscript st videoId requestedLanguage
      ("Error: " ++ Youtube.handleYouTubeErrors error) true
    (.error (.generic (Youtube.handleYouTubeErrors error)), st1)

/-- `getTranscriptWithFallback` of src/tools/transcript.ts (exact-language
mode).  A cached value that carries the `Error:` tag is thrown inside the
try block of the source, so it lands in the same catch block as a fresh
fetch failure, as a generic error whose message is the stored string. -/
def getTranscriptWithFallback (fetch : String → String → Except YTError String)
    (videoId : String) (st : ResState) (requestedLanguage : String) :
    Except YTError String × ResState :=
  match getCachedTranscript st videoId requestedLanguage with
  | some cachedData =>
    if strStartsWith cachedData "Error:" then
      handleFallbackFailure fetch videoId st requestedLanguage (.generic cachedData)
    else (.ok cachedData, st)
  | none =>
    let st1 := recordFetchCall st videoId requestedLanguage
    match fetch videoId requestedLanguage with
    | .ok transcript =>
      let st2 := setCachedTranscript st1 videoId requestedLanguage transcript false
      (.ok transcript, st2)
    | .error error => handleFallbackFailure fetch videoId st1 requestedLanguage error

/-- The fixed candidate list of auto-detect mode. -/
def languagesToTry : List String :=
  ["en", "es", "fr", "de", "tr", "pt", "ja", "ko", "zh", "it", "ru", "ar"]

/-- Annotation prepended to a freshly fetched transcript in auto-detect
mode. -/
def autoDetectNote (lang : String) : String :=
  "[Auto-detected language: " ++ lang ++ "]\n\n"

/-- The error message raised when the auto-detect loop stops: the
aggregate listing when at least one language-related failure was
recorded, otherwise the classification of the last error (the message
`handleYouTubeErrors` produces for an absent error when no candidate was
ever attempted). -/
def noLanguageMessage (availableLanguages : List String) (lastError : Option YTError) :
    String :=
  if 0 < availableLanguages.length then
    "No transcript available in any tested language. Tried: " ++
    joinCommaSp availableLanguages
  else
    match lastError with
    | some e => Youtube.handleYouTubeErrors e
    | none => "An unexpected error occurred while fetching the transcript."

/-- The candidate loop of `getTranscriptWithAutoDetection`.  Per
candidate: a cached non-error value is returned as-is; otherwise (miss or
cached error) the capability is invoked, a success is cached and returned
annotated, a language-related failure is recorded and the loop continues,
and any other failure stops the loop with `noLanguageMessage`. -/
def autoDetectGo (fetch : String → String → Except YTError String) (videoId : String) :
    List String → ResState → Option YTError → List String →
    Except YTError String × ResState
  | [], st, lastError, availableLanguages =>
    (.error (.generic (noLanguageMessage availableLanguages lastError)), st)
  | lang :: rest, st, _lastError, availableLanguages =>
    let attemptFetch : Except YTError String × ResState :=
      let st1 := recordFetchCall st videoId lang
      match fetch videoId lang with
      | .ok transcript =>
        let st2 := setCachedTranscript st1 videoId lang transcript false
        (.ok (autoDetectNote lang ++ transcript), st2)
      | .error error =>
        if isLanguageRelatedError error = false then
          (.error (.generic (noLanguageMessage availableLanguages (some error))), st1)
        else
          autoDetectGo fetch videoId rest st1 (some error)
            (availableLanguages ++ [lang ++ ": " ++ error.message])
    match getCachedTranscript st videoId lang with
    | some cachedData =>
      if strStartsWith cachedData "Error:" = false then (.ok cachedData, st)
      else attemptFetch
    | none => attemptFetch

/-- `getTranscriptWithAutoDetection` of src/tools/transcript.ts. -/
def getTranscriptWithAutoDetection (fetch : String → String → Except YTError String)
    (videoId : String) (st : ResState) : Except YTError String × ResState :=
  autoDetectGo fetch videoId languagesToTry st none []

/-- `getTranscript` of src/tools/transcript.ts (the outward
`resolveTranscript` contract): URL validation, video ID extraction from
the normalized URL, then dispatch on the `auto` sentinel. -/
def getTranscript (fetch : String → String → Except YTError String)
    (url : String) (st : ResState) (language : String) :
    Except YTError String × ResState :=
  if isValidYouTubeUrl url = false then
    (.error (.generic "Invalid YouTube URL provided."), st)
  else
    match extractVideoId (normalizeYouTubeUrl url) with
    | none => (.error (.generic "Could not extract video ID from the URL."), st)
    | some videoId =>
      if language = "auto" then getTranscriptWithAutoDetection fetch videoId st
      else getTranscriptWithFallback fetch videoId st language

end Tools
/- ## Helper lemmas -/

theorem getTranscriptGo_calls_le (fetch : Nat → Youtube.FetchOutcome)
    (videoId language : String) :
    ∀ fuel attempts backoff,
      (Youtube.getTranscriptGo fetch videoId language fuel attempts backoff).calls ≤ fuel := by
  intro fuel
  induction fuel with
  | zero => intro attempts backoff; simp [Youtube.getTranscriptGo]
  | succ n ih =>
    intro attempts backoff
    unfold Youtube.getTranscriptGo
    cases hf : fetch attempts with
    | success segs => simp
    | failure msg =>
      simp only
      split_ifs <;> simp <;>
        first
          | omega
          | (have h := ih (attempts + 1) (backoff * 2); omega)

theorem append3_eq (a b c : String) (lit : String) (h : a ++ b ++ c = lit) (m : String) :
    a ++ b ++ c ++ m = lit ++ m := by rw [h]

/- ## Claim theorems -/

/-- C5: a first upstream failure whose message is not network-shaped and
not rate-limit-shaped, and is no-transcript-shaped (classified
`VideoUnavailable`) or invalid-video-shaped (classified `InvalidVideo`),
makes the retry-fetch `getTranscript` fail immediately with that
classification after exactly one upstream call, with no retry. -/
theorem C5_unavailable_or_invalid_not_retried
    (fetch : Nat → Youtube.FetchOutcome) (videoId language msg : String)
    (h0 : fetch 0 = .failure msg)
    (hnet : Youtube.isNetworkShapedError msg = false)
    (hrate : Youtube.isRateLimitShapedError msg = false)
    (hshape : Youtube.isNoTranscriptShapedError msg = true ∨
      Youtube.isInvalidVideoShapedError msg = true) :
    (Youtube.getTranscript videoId language fetch).calls = 1 ∧
    (Youtube.isNoTranscriptShapedError msg = true →
      (Youtube.getTranscript videoId language fetch).result =
        .error (.videoUnavailable ("No transcript found for " ++ videoId ++
          " (lang: " ++ language ++ "). Transcripts may be disabled."))) ∧
    (Youtube.isNoTranscriptShapedError msg = false →
      (Youtube.getTranscript videoId language fetch).result =
        .error (.invalidVideo ("Video " ++ videoId ++ " not found or is private."))) := by
  cases hnt : Youtube.isNoTranscriptShapedError msg with
  | true =>
    refine ⟨?_, fun _ => ?_, fun hc => by simp [hnt] at hc⟩ <;>
      simp [Youtube.getTranscript, Youtube.getTranscriptGo, Youtube.MAX_RETRIES,
        Youtube.INITIAL_BACKOFF_MS, h0, hnet, hrate, hnt]
  | false =>
    have hinv : Youtube.isInvalidVideoShapedError msg = true := by
      rcases hshape with h | h
      · simp [hnt] at h
      · exact h
    refine ⟨?_, fun hc => by simp [hnt] at hc, fun _ => ?_⟩ <;>
      simp [Youtube.getTranscript, Youtube.getTranscriptGo, Youtube.MAX_RETRIES,
        Youtube.INITIAL_BACKOFF_MS, h0, hnet, hrate, hnt, hinv]

def fetchNoTranscriptShaped : Nat → Youtube.FetchOutcome :=
  fun _ => .failure "No transcript found for this video"

/-- Witness for C5 at a concrete no-transcript-shaped failure message. -/
theorem C5_witness :
    (Youtube.getTranscript "vid" "en" fetchNoTranscriptShaped).calls = 1 ∧
    (Youtube.getTranscript "vid" "en" fetchNoTranscriptShaped).result =
      .error (.videoUnavailable
        "No transcript found for vid (lang: en). Transcripts may be disabled.") := by
  have h := C5_unavailable_or_invalid_not_retried fetchNoTranscriptShaped "vid" "en"
    "No transcript found for this video" rfl (by decide) (by decide) (Or.inl (by decide))
  exact ⟨h.1, (h.2.1 (by decide)).trans (by decide)⟩

/-- C6: the retry-fetch makes at most 3 upstream attempts; three
network-shaped failures exhaust the retries and fail as `NetworkError`,
and three rate-limit-shaped (and not network-shaped) failures exhaust the
retries and fail as `RateLimited`. -/
theorem C6_bounded_retries_and_exhaustion
    (fetch : Nat → Youtube.FetchOutcome) (videoId language : String) :
    (Youtube.getTranscript videoId language fetch).calls ≤ 3 ∧
    (∀ m0 m1 m2,
      fetch 0 = .failure m0 → fetch 1 = .failure m1 → fetch 2 = .failure m2 →
      Youtube.isNetworkShapedError m0 = true → Youtube.isNetworkShapedError m1 = true →
      Youtube.isNetworkShapedError m2 = true →
      Youtube.getTranscript videoId language fetch =
        { result := .error (.networkError ("Network error after 3 attempts: " ++ m2)),
          calls := 3 }) ∧
    (∀ m0 m1 m2,
      fetch 0 = .failure m0 → fetch 1 = .failure m1 → fetch 2 = .failure m2 →
      Youtube.isNetworkShapedError m0 = false → Youtube.isNetworkShapedError m1 = false →
      Youtube.isNetworkShapedError m2 = false →
      Youtube.isRateLimitShapedError m0 = true → Youtube.isRateLimitShapedError m1 = true →
      Youtube.isRateLimitShapedError m2 = true →
      Youtube.getTranscript videoId language fetch =
        { result := .error (.rateLimit ("Rate limited after 3 attempts: " ++ m2)),
          calls := 3 }) := by
  refine ⟨getTranscriptGo_calls_le fetch videoId language 3 0 1000, ?_, ?_⟩
  · intro m0 m1 m2 h0 h1 h2 hn0 hn1 hn2
    have hmsg : "Network error after " ++ toString (3 : Nat) ++ " attempts: " ++ m2 =
        "Network error after 3 attempts: " ++ m2 := append3_eq _ _ _ _ (by decide) m2
    simp [Youtube.getTranscript, Youtube.getTranscriptGo, Youtube.MAX_RETRIES,
      Youtube.INITIAL_BACKOFF_MS, h0, h1, h2, hn0, hn1, hn2, hmsg]
  · intro m0 m1 m2 h0 h1 h2 hn0 hn1 hn2 hr0 hr1 hr2
    have hmsg : "Rate limited after " ++ toString (3 : Nat) ++ " attempts: " ++ m2 =
        "Rate limited after 3 attempts: " ++ m2 := append3_eq _ _ _ _ (by decide) m2
    simp [Youtube.getTranscript, Youtube.getTranscriptGo, Youtube.MAX_RETRIES,
      Youtube.INITIAL_BACKOFF_MS, h0, h1, h2, hn0, hn1, hn2, hr0, hr1, hr2, hmsg]

def fetchAlwaysTimedOut : Nat → Youtube.FetchOutcome :=
  fun _ => .failure "connection timed out"

/-- Witness for C6 at a concrete network-shaped failure message. -/
theorem C6_witness :
    (Youtube.getTranscript "vid" "en" fetchAlwaysTimedOut).calls ≤ 3 ∧
    Youtube.getTranscript "vid" "en" fetchAlwaysTimedOut =
      { result := .error (.networkError
          "Network error after 3 attempts: connection timed out"),
        calls := 3 } := by
  have h := C6_bounded_retries_and_exhaustion fetchAlwaysTimedOut "vid" "en"
  refine ⟨h.1, ?_⟩
  have h2 := h.2.1 "connection timed out" "connection timed out" "connection timed out"
    rfl rfl rfl (by decide) (by decide) (by decide)
  exact h2.trans (by decide)

/-- C7: a first-attempt upstream success returns the caption segment
texts joined with single spaces and sanitized by collapsing newline runs
and trimming both ends; the concrete sanitization example of the spec
holds. -/
theorem C7_success_joined_and_sanitized
    (fetch : Nat → Youtube.FetchOutcome) (videoId language : String)
    (segments : List String)
    (h0 : fetch 0 = .success segments) :
    (Youtube.getTranscript videoId language fetch).result =
      .ok (Youtube.sanitizeTranscriptText (joinSpace segments)) ∧
    Youtube.sanitizeTranscriptText "a\n\n\nb  \n" = "a\nb" := by
  constructor
  · simp [Youtube.getTranscript, Youtube.getTranscriptGo, Youtube.MAX_RETRIES,
      Youtube.INITIAL_BACKOFF_MS, h0]
  · decide

def fetchSegmentsOnce : Nat → Youtube.FetchOutcome :=
  fun _ => .success ["a", "b\n\nc", "d"]

/-- Witness for C7 at a concrete segment list. -/
theorem C7_witness :
    (Youtube.getTranscript "vid" "en" fetchSegmentsOnce).result = .ok "a b\nc d" := by
  exact (C7_success_joined_and_sanitized fetchSegmentsOnce "vid" "en"
    ["a", "b\n\nc", "d"] rfl).1.trans (by decide)

/-- Hostname acceptance test of `isValidYouTubeUrl`: the `www.`-stripped
hostname of the parsed URL is on the allow-list. -/
def hostnameAllowed (url : String) : Bool :=
  let parsedUrl := parseUrl url
  let hostname :=
    if strStartsWith parsedUrl.hostname "www." then String.mk (parsedUrl.hostname.data.drop 4)
    else parsedUrl.hostname
  validHostnames.contains hostname

/-- C4 counterexample: `extractVideoId` performs no hostname check, so a
URL on a non-allow-listed host still yields an identifier while
`isValidYouTubeUrl` rejects it — the claimed equivalence fails, as does
the claim that such a URL yields no identifier. -/
theorem C4_counterexample :
    extractVideoId "https://evil.com/watch?v=abc" = some "abc" ∧
    isValidYouTubeUrl "https://evil.com/watch?v=abc" = false := by decide

/-- C4 amended: `isValidYouTubeUrl url` is true exactly when the URL is
non-empty, its `www.`-stripped hostname is on the allow-list, and
`extractVideoId` yields an identifier.  Validity still implies an
identifier is extractable, but not conversely: `extractVideoId` itself
performs no hostname check. -/
theorem C4_validity_characterisation (url : String) :
    isValidYouTubeUrl url = true ↔
      (url ≠ "" ∧ hostnameAllowed url = true ∧ (extractVideoId url).isSome = true) := by
  unfold isValidYouTubeUrl hostnameAllowed extractVideoId
  by_cases h : url = ""
  · simp [h]
  · simp only [h, if_false]
    split_ifs <;> simp_all

/-- Witness for C4 at a canonical watch URL. -/
theorem C4_witness :
    isValidYouTubeUrl "https://www.youtube.com/watch?v=dQw4w9WgXcQ" = true := by
  exact (C4_validity_characterisation "https://www.youtube.com/watch?v=dQw4w9WgXcQ").mpr
    (by decide)

theorem getCached_recordFetchCall (st : Tools.ResState) (v l v2 l2 : String) :
    Tools.getCachedTranscript (Tools.recordFetchCall st v l) v2 l2 =
      Tools.getCachedTranscript st v2 l2 := by
  simp [Tools.getCachedTranscript, Tools.recordFetchCall]

/-- Truth of "the cache holds no stored transcript for this key": either a
miss, or a hit carrying the `Error:` tag. -/
def noCachedTranscript (st : Tools.ResState) (videoId lang : String) : Bool :=
  match Tools.getCachedTranscript st videoId lang with
  | some c => strStartsWith c "Error:"
  | none => true

def stAutoHitEn : Tools.ResState :=
  { hasCache := true, cache := [(("vid", "en"), "hello world")], writes := [], calls := [] }

def fetchUnused : String → String → Except YTError String :=
  fun _ _ => .error (.generic "unused")

/-- C1 counterexample: in auto-detect mode a candidate whose cache holds a
stored transcript is returned exactly as cached, not annotated with the
auto-detected language. -/
theorem C1_counterexample :
    (Tools.getTranscriptWithAutoDetection fetchUnused "vid" stAutoHitEn).1 =
      .ok "hello world" ∧
    ("hello world" : String) ≠ Tools.autoDetectNote "en" ++ "hello world" := by
  decide

/-- C1 amended: in auto-detect mode, a candidate the loop reaches (each
earlier candidate has no stored transcript and fails its fetch with a
language-related error) whose cache holds a stored transcript is returned
as that cached transcript verbatim, without the auto-detected-language
annotation. -/
theorem C1_cached_hit_returned_unannotated
    (fetch : String → String → Except YTError String) (videoId : String)
    (pre : List (String × YTError)) (lang : String) (rest : List String)
    (st : Tools.ResState) (lastE : Option YTError) (avail : List String) (d : String)
    (hpre : ∀ p ∈ pre,
      noCachedTranscript st videoId p.1 = true ∧
      fetch videoId p.1 = .error p.2 ∧ Tools.isLanguageRelatedError p.2 = true)
    (hhit : Tools.getCachedTranscript st videoId lang = some d)
    (hok : strStartsWith d "Error:" = false) :
    (Tools.autoDetectGo fetch videoId (pre.map Prod.fst ++ lang :: rest) st lastE avail).1 =
      .ok d := by
  revert hpre hhit
  induction pre generalizing st lastE avail with
  | nil =>
    intro hpre hhit
    simp [Tools.autoDetectGo, hhit, hok]
  | cons p ps ih =>
    intro hpre hhit
    obtain ⟨hc, hf, hl⟩ := hpre p (by simp)
    have hps : ∀ q ∈ ps,
        noCachedTranscript (Tools.recordFetchCall st videoId p.1) videoId q.1 = true ∧
        fetch videoId q.1 = .error q.2 ∧ Tools.isLanguageRelatedError q.2 = true := by
      intro q hq
      have hh := hpre q (by simp [hq])
      simpa [noCachedTranscript, getCached_recordFetchCall] using hh
    have hhit1 : Tools.getCachedTranscript (Tools.recordFetchCall st videoId p.1)
        videoId lang = some d := by
      simpa [getCached_recordFetchCall] using hhit
    have hrec := ih (Tools.recordFetchCall st videoId p.1) (some p.2)
      (avail ++ [p.1 ++ ": " ++ p.2.message]) hps hhit1
    cases hcc : Tools.getCachedTranscript st videoId p.1 with
    | none =>
      simpa [Tools.autoDetectGo, hcc, hf, hl] using hrec
    | some c =>
      have hce : strStartsWith c "Error:" = true := by
        simpa [noCachedTranscript, hcc] using hc
      simpa [Tools.autoDetectGo, hcc, hce, hf, hl] using hrec

def fetchEnLangFails : String → String → Except YTError String := fun _ lang =>
  if lang = "en" then .error (.generic "No transcript found for this language")
  else .error (.generic "unused")

def stEsHit : Tools.ResState :=
  { hasCache := true, cache := [(("vid", "es"), "hola")], writes := [], calls := [] }

/-- Witness for C1 amended: English fails with a language-related error,
Spanish is cached; the cached Spanish transcript comes back verbatim. -/
theorem C1_witness :
    (Tools.getTranscriptWithAutoDetection fetchEnLangFails "vid" stEsHit).1 = .ok "hola" := by
  exact C1_cached_hit_returned_unannotated fetchEnLangFails "vid"
    [("en", YTError.generic "No transcript found for this language")] "es"
    ["fr", "de", "tr", "pt", "ja", "ko", "zh", "it", "ru", "ar"] stEsHit none [] "hola"
    (by decide) (by decide) (by decide)

def stEmpty : Tools.ResState :=
  { hasCache := true, cache := [], writes := [], calls := [] }

def fetchEnLangEsInvalid : String → String → Except YTError String := fun _ lang =>
  if lang = "en" then .error (.generic "No transcript found for this language")
  else .error (.invalidVideo "This video is unavailable")

/-- C2 counterexample: English fails language-related, Spanish fails with
a non-language error.  The loop does stop (only two upstream calls), but
it raises the aggregate listing of the earlier language-related failure,
not the classification of the non-language error. -/
theorem C2_counterexample :
    (Tools.getTranscriptWithAutoDetection fetchEnLangEsInvalid "vid" stEmpty).1 =
      .error (.generic ("No transcript available in any tested language. " ++
        "Tried: en: No transcript found for this language")) ∧
    (Tools.getTranscriptWithAutoDetection fetchEnLangEsInvalid "vid" stEmpty).2.calls =
      [("vid", "en"), ("vid", "es")] ∧
    Youtube.handleYouTubeErrors (.invalidVideo "This video is unavailable") =
      "Video not found or private." ∧
    ("No transcript available in any tested language. " ++
        "Tried: en: No transcript found for this language") ≠
      "Video not found or private." := by decide

theorem autoDetectGo_nonlanguage_break
    (fetch : String → String → Except YTError String) (videoId : String)
    (pre : List (String × YTError)) (lang : String) (rest : List String)
    (st : Tools.ResState) (lastE : Option YTError) (avail : List String) (e : YTError)
    (hpre : ∀ p ∈ pre,
      noCachedTranscript st videoId p.1 = true ∧
      fetch videoId p.1 = .error p.2 ∧ Tools.isLanguageRelatedError p.2 = true)
    (hnohit : noCachedTranscript st videoId lang = true)
    (he : fetch videoId lang = .error e)
    (hnl : Tools.isLanguageRelatedError e = false) :
    Tools.autoDetectGo fetch videoId (pre.map Prod.fst ++ lang :: rest) st lastE avail =
      (.error (.generic (Tools.noLanguageMessage
          (avail ++ pre.map (fun p => p.1 ++ ": " ++ p.2.message)) (some e))),
        { st with calls := st.calls ++ pre.map (fun p => (videoId, p.1)) ++ [(videoId, lang)] }) := by
  revert hpre hnohit
  induction pre generalizing st lastE avail with
  | nil =>
    intro hpre hnohit
    cases hcc : Tools.getCachedTranscript st videoId lang with
    | none =>
      simp [Tools.autoDetectGo, hcc, he, hnl, Tools.recordFetchCall]
    | some c =>
      have hce : strStartsWith c "Error:" = true := by
        simpa [noCachedTranscript, hcc] using hnohit
      simp [Tools.autoDetectGo, hcc, hce, he, hnl, Tools.recordFetchCall]
  | cons p ps ih =>
    intro hpre hnohit
    obtain ⟨hc, hf, hl⟩ := hpre p (by simp)
    have hps : ∀ q ∈ ps,
        noCachedTranscript (Tools.recordFetchCall st videoId p.1) videoId q.1 = true ∧
        fetch videoId q.1 = .error q.2 ∧ Tools.isLanguageRelatedError q.2 = true := by
      intro q hq
      have hh := hpre q (by simp [hq])
      simpa [noCachedTranscript, getCached_recordFetchCall] using hh
    have hnohit1 : noCachedTranscript (Tools.recordFetchCall st videoId p.1) videoId lang = true := by
      simpa [noCachedTranscript, getCached_recordFetchCall] using hnohit
    have hrec := ih (Tools.recordFetchCall st videoId p.1) (some p.2)
      (avail ++ [p.1 ++ ": " ++ p.2.message]) hps hnohit1
    cases hcc : Tools.getCachedTranscript st videoId p.1 with
    | none =>
      rw [List.map_cons, List.cons_append]
      simp only [Tools.autoDetectGo, hcc, hf, hl]
      rw [hrec]
      simp [Tools.recordFetchCall, List.append_assoc]
    | some c =>
      have hce : strStartsWith c "Error:" = true := by
        simpa [noCachedTranscript, hcc] using hc
      rw [List.map_cons, List.cons_append]
      simp only [Tools.autoDetectGo, hcc, hce, hf, hl]
      rw [hrec]
      simp [Tools.recordFetchCall, List.append_assoc]

/-- C2 amended: when a candidate fails with a non-language-related error,
the loop tries no further candidate (the upstream calls end at that
candidate); it raises that error's classified message only when no
earlier candidate recorded a language-related failure, and otherwise
raises the aggregate error listing the earlier language-related failures
(`noLanguageMessage`, which branches on whether the recorded list is
empty). -/
theorem C2_nonlanguage_error_stops_loop
    (fetch : String → String → Except YTError String) (videoId : String)
    (pre : List (String × YTError)) (lang : String) (rest : List String)
    (st : Tools.ResState) (e : YTError)
    (hpre : ∀ p ∈ pre,
      noCachedTranscript st videoId p.1 = true ∧
      fetch videoId p.1 = .error p.2 ∧ Tools.isLanguageRelatedError p.2 = true)
    (hnohit : noCachedTranscript st videoId lang = true)
    (he : fetch videoId lang = .error e)
    (hnl : Tools.isLanguageRelatedError e = false) :
    (Tools.autoDetectGo fetch videoId (pre.map Prod.fst ++ lang :: rest) st none []).1 =
      .error (.generic (Tools.noLanguageMessage
        (pre.map (fun p => p.1 ++ ": " ++ p.2.message)) (some e))) ∧
    (Tools.autoDetectGo fetch videoId (pre.map Prod.fst ++ lang :: rest) st none []).2.calls =
      st.calls ++ pre.map (fun p => (videoId, p.1)) ++ [(videoId, lang)] := by
  have h := autoDetectGo_nonlanguage_break fetch videoId pre lang rest st none [] e
    hpre hnohit he hnl
  rw [h]
  simp

/-- Witness for C2 amended at the counterexample's data: the loop stops
at Spanish and raises the aggregate message. -/
theorem C2_witness :
    (Tools.autoDetectGo fetchEnLangEsInvalid "vid"
        (["en"] ++ "es" :: ["fr", "de", "tr", "pt", "ja", "ko", "zh", "it", "ru", "ar"])
        stEmpty none []).1 =
      .error (.generic (Tools.noLanguageMessage
        ["en: No transcript found for this language"]
        (some (.invalidVideo "This video is unavailable")))) := by
  have h := C2_nonlanguage_error_stops_loop fetchEnLangEsInvalid "vid"
    [("en", YTError.generic "No transcript found for this language")] "es"
    ["fr", "de", "tr", "pt", "ja", "ko", "zh", "it", "ru", "ar"] stEmpty
    (.invalidVideo "This video is unavailable")
    (by decide) (by decide) (by decide) (by decide)
  exact h.1

theorem setCached_calls (st : Tools.ResState) (v l d : String) (b : Bool) :
    (Tools.setCachedTranscript st v l d b).calls = st.calls := by
  unfold Tools.setCachedTranscript
  split_ifs <;> rfl

theorem recordFetchCall_calls (st : Tools.ResState) (v l : String) :
    (Tools.recordFetchCall st v l).calls = st.calls ++ [(v, l)] := rfl

theorem runEnglishFallback_calls
    (fetch : String → String → Except YTError String)
    (videoId : String) (st : Tools.ResState) (requestedLanguage : String) (error : YTError) :
    ∃ extra, (Tools.runEnglishFallback fetch videoId st requestedLanguage error).2.calls =
      st.calls ++ extra ∧ ∀ x ∈ extra, x = (videoId, "en") := by
  unfold Tools.runEnglishFallback
  cases hcc : Tools.getCachedTranscript st videoId "en" with
  | some d =>
    cases hsd : strStartsWith d "Error:" with
    | false =>
      exact ⟨[], by simp [hcc, hsd], by simp⟩
    | true =>
      cases hf : fetch videoId "en" with
      | ok t =>
        exact ⟨[(videoId, "en")],
          by simp [hcc, hsd, hf, setCached_calls, recordFetchCall_calls], by simp⟩
      | error ee =>
        exact ⟨[(videoId, "en")],
          by simp [hcc, hsd, hf, setCached_calls, recordFetchCall_calls], by simp⟩
  | none =>
    cases hf : fetch videoId "en" with
    | ok t =>
      exact ⟨[(videoId, "en")],
        by simp [hcc, hf, setCached_calls, recordFetchCall_calls], by simp⟩
    | error ee =>
      exact ⟨[(videoId, "en")],
        by simp [hcc, hf, setCached_calls, recordFetchCall_calls], by simp⟩

def stCachedErrTr : Tools.ResState :=
  { hasCache := true,
    cache := [(("vid", "tr"), "Error: No transcript available for this video.")],
    writes := [], calls := [] }

def fetchEnglishHello : String → String → Except YTError String := fun _ lang =>
  if lang = "en" then .ok "hello" else .error (.generic "unused")

/-- C3 counterexample: with a stored error cached for (vid, tr) and
English available upstream, exact-language mode does not re-raise the
cached error: it performs an upstream English fetch and returns the
English transcript with the fallback annotation. -/
theorem C3_counterexample :
    (Tools.getTranscriptWithFallback fetchEnglishHello "vid" stCachedErrTr "tr").1 =
      .ok (Tools.englishFallbackNote "tr" ++ "hello") ∧
    (Tools.getTranscriptWithFallback fetchEnglishHello "vid" stCachedErrTr "tr").2.calls =
      [("vid", "en")] := by decide

/-- C3 amended: a cached error is re-thrown with the stored string as its
message and then handled by the same catch block as a fresh fetch
failure.  No upstream fetch for the requested language occurs (every new
upstream call is the English one), but the error is re-raised — after
re-classification of the stored string through `handleYouTubeErrors` —
only when the stored message is not language-related or the request is
English; otherwise the English fallback (cache check, then upstream
English fetch) runs. -/
theorem C3_cached_error_behaviour
    (fetch : String → String → Except YTError String)
    (videoId : String) (st : Tools.ResState) (requestedLanguage c : String)
    (hhit : Tools.getCachedTranscript st videoId requestedLanguage = some c)
    (herr : strStartsWith c "Error:" = true) :
    (∃ extra, (Tools.getTranscriptWithFallback fetch videoId st requestedLanguage).2.calls =
        st.calls ++ extra ∧ ∀ x ∈ extra, x = (videoId, "en")) ∧
    (Tools.isLanguageRelatedError (.generic c) = false ∨ requestedLanguage = "en" →
      (Tools.getTranscriptWithFallback fetch videoId st requestedLanguage).1 =
        .error (.generic (Youtube.handleYouTubeErrors (.generic c)))) ∧
    (Tools.isLanguageRelatedError (.generic c) = true → requestedLanguage ≠ "en" →
      Tools.getTranscriptWithFallback fetch videoId st requestedLanguage =
        Tools.runEnglishFallback fetch videoId st requestedLanguage (.generic c)) := by
  have hstep : Tools.getTranscriptWithFallback fetch videoId st requestedLanguage =
      Tools.handleFallbackFailure fetch videoId st requestedLanguage (.generic c) := by
    simp [Tools.getTranscriptWithFallback, hhit, herr]
  rw [hstep]
  by_cases hcond : Tools.isLanguageRelatedError (.generic c) = true ∧ requestedLanguage ≠ "en"
  · have hred : Tools.handleFallbackFailure fetch videoId st requestedLanguage (.generic c) =
        Tools.runEnglishFallback fetch videoId st requestedLanguage (.generic c) := by
      simp [Tools.handleFallbackFailure, hcond]
    rw [hred]
    refine ⟨runEnglishFallback_calls fetch videoId st requestedLanguage (.generic c),
      ?_, fun _ _ => rfl⟩
    rintro (h | h)
    · rw [h] at hcond; simp at hcond
    · exact absurd h hcond.2
  · have hred : Tools.handleFallbackFailure fetch videoId st requestedLanguage (.generic c) =
        (.error (.generic (Youtube.handleYouTubeErrors (.generic c))),
          Tools.setCachedTranscript st videoId requestedLanguage
            ("Error: " ++ Youtube.handleYouTubeErrors (.generic c)) true) := by
      simp only [Tools.handleFallbackFailure, if_neg hcond]
    rw [hred]
    refine ⟨⟨[], by simp [setCached_calls], by simp⟩, fun _ => rfl, fun h1 h2 => ?_⟩
    exact absurd ⟨h1, h2⟩ hcond

/-- Witness for C3 amended at the counterexample's data: the cached error
is language-related and the request is not English, so the run coincides
with the English fallback. -/
theorem C3_witness :
    Tools.getTranscriptWithFallback fetchEnglishHello "vid" stCachedErrTr "tr" =
      Tools.runEnglishFallback fetchEnglishHello "vid" stCachedErrTr "tr"
        (.generic "Error: No transcript available for this video.") := by
  exact (C3_cached_error_behaviour fetchEnglishHello "vid" stCachedErrTr "tr"
    "Error: No transcript available for this video." (by decide) (by decide)).2.2
    (by decide) (by decide)

theorem getCached_setCached_same (st : Tools.ResState) (v l d : String) (b : Bool)
    (hb : st.hasCache = true) :
    Tools.getCachedTranscript (Tools.setCachedTranscript st v l d b) v l = some d := by
  simp [Tools.getCachedTranscript, Tools.setCachedTranscript, hb, List.lookup]

theorem note_data (l x : String) :
    (Tools.englishFallbackNote l ++ x).data =
      '[' :: ((("Requested language \x27".data ++ l.data) ++
        "\x27 not available, showing English instead]\n\n".data) ++ x.data) := rfl

theorem strStartsWith_note_false (l x : String) :
    strStartsWith (Tools.englishFallbackNote l ++ x) "Error:" = false := by
  unfold strStartsWith
  rw [note_data]
  rw [show "Error:".data = 'E' :: "rror:".data from rfl]
  simp [startsWithL]

theorem runEnglishFallback_ok_shape
    (fetch : String → String → Except YTError String)
    (videoId : String) (st : Tools.ResState) (requestedLanguage : String) (error : YTError)
    (t : String)
    (h : (Tools.runEnglishFallback fetch videoId st requestedLanguage error).1 = .ok t) :
    ∃ x, t = Tools.englishFallbackNote requestedLanguage ++ x := by
  unfold Tools.runEnglishFallback at h
  cases hcc : Tools.getCachedTranscript st videoId "en" with
  | some d =>
    cases hsd : strStartsWith d "Error:" with
    | false =>
      rw [hcc] at h
      simp [hsd] at h
      exact ⟨d, h.symm⟩
    | true =>
      rw [hcc] at h
      simp only [hsd] at h
      cases hf : fetch videoId "en" with
      | ok s =>
        rw [hf] at h
        simp at h
        exact ⟨s, h.symm⟩
      | error ee =>
        rw [hf] at h
        simp at h
  | none =>
    rw [hcc] at h
    simp only [] at h
    cases hf : fetch videoId "en" with
    | ok s =>
      rw [hf] at h
      simp at h
      exact ⟨s, h.symm⟩
    | error ee =>
      rw [hf] at h
      simp at h

def fetchOkErrorPrefixed : String → String → Except YTError String :=
  fun _ _ => .ok "Error: sample transcript"

/-- C8 counterexample: a transcript whose own text starts with the
reserved tag, written as a success entry, is treated as a stored error on
the next read: the second run raises instead of returning the cached
transcript text. -/
theorem C8_counterexample :
    (Tools.getTranscriptWithFallback fetchOkErrorPrefixed "vid" stEmpty "en").2.writes =
      [{ videoId := "vid", language := "en", data := "Error: sample transcript",
         isErrorEntry := false,
         ttlSeconds := Tools.SUCCESSFUL_TRANSCRIPT_TTL_SECONDS }] ∧
    (Tools.getTranscriptWithFallback fetchOkErrorPrefixed "vid"
        (Tools.getTranscriptWithFallback fetchOkErrorPrefixed "vid" stEmpty "en").2 "en").1 =
      .error (.generic "An unexpected error occurred while fetching the transcript.") := by
  decide

/-- C8 amended: tagging round-trips through the cache except for success
transcripts that themselves start with the reserved `Error:` tag.  A
success entry whose text does not start with `Error:` is returned as that
transcript on the next exact-language read, and a stored entry carrying
the tag is never returned as that cached text. -/
theorem C8_tagging_roundtrip
    (fetch : String → String → Except YTError String)
    (videoId lang t : String) (st : Tools.ResState) :
    (st.hasCache = true → strStartsWith t "Error:" = false →
      (Tools.getTranscriptWithFallback fetch videoId
        (Tools.setCachedTranscript st videoId lang t false) lang).1 = .ok t) ∧
    (∀ c, Tools.getCachedTranscript st videoId lang = some c →
      strStartsWith c "Error:" = true →
      (Tools.getTranscriptWithFallback fetch videoId st lang).1 ≠ .ok c) := by
  constructor
  · intro hb ht
    have hcc := getCached_setCached_same st videoId lang t false hb
    simp [Tools.getTranscriptWithFallback, hcc, ht]
  · intro c hhit herr
    have hstep : Tools.getTranscriptWithFallback fetch videoId st lang =
        Tools.handleFallbackFailure fetch videoId st lang (.generic c) := by
      simp [Tools.getTranscriptWithFallback, hhit, herr]
    rw [hstep]
    by_cases hcond : Tools.isLanguageRelatedError (.generic c) = true ∧ lang ≠ "en"
    · have hred : Tools.handleFallbackFailure fetch videoId st lang (.generic c) =
          Tools.runEnglishFallback fetch videoId st lang (.generic c) := by
        simp [Tools.handleFallbackFailure, hcond]
      rw [hred]
      intro h
      obtain ⟨x, hx⟩ := runEnglishFallback_ok_shape fetch videoId st lang (.generic c) c h
      rw [hx] at herr
      rw [strStartsWith_note_false] at herr
      cases herr
    · have hred : Tools.handleFallbackFailure fetch videoId st lang (.generic c) =
          (.error (.generic (Youtube.handleYouTubeErrors (.generic c))),
            Tools.setCachedTranscript st videoId lang
              ("Error: " ++ Youtube.handleYouTubeErrors (.generic c)) true) := by
        simp only [Tools.handleFallbackFailure, if_neg hcond]
      rw [hred]
      simp

/-- Witness for C8 amended: a success write without the tag round-trips. -/
theorem C8_witness :
    (Tools.getTranscriptWithFallback fetchUnused "vid"
      (Tools.setCachedTranscript stEmpty "vid" "en" "hello" false) "en").1 = .ok "hello" := by
  exact (C8_tagging_roundtrip fetchUnused "vid" "en" "hello" stEmpty).1 rfl (by decide)

theorem setCached_writes_mem (st : Tools.ResState) (v l d : String) (b : Bool)
    (w : Tools.CacheWrite)
    (hw : w ∈ (Tools.setCachedTranscript st v l d b).writes) :
    w ∈ st.writes ∨ w.language = l := by
  by_cases hb : st.hasCache = true
  · have heq : (Tools.setCachedTranscript st v l d b).writes = st.writes ++
        [{ videoId := v, language := l, data := d, isErrorEntry := b,
           ttlSeconds := if b then Tools.ERROR_RESPONSE_TTL_SECONDS
                         else Tools.SUCCESSFUL_TRANSCRIPT_TTL_SECONDS }] := by
      unfold Tools.setCachedTranscript
      rw [if_pos hb]
    rw [heq] at hw
    simp at hw
    rcases hw with h | h
    · exact Or.inl h
    · right; rw [h]
  · have heq : (Tools.setCachedTranscript st v l d b).writes = st.writes := by
      unfold Tools.setCachedTranscript
      rw [if_neg hb]
    rw [heq] at hw
    exact Or.inl hw

theorem recordFetchCall_writes (st : Tools.ResState) (v l : String) :
    (Tools.recordFetchCall st v l).writes = st.writes := rfl

theorem runEnglishFallback_writes
    (fetch : String → String → Except YTError String)
    (videoId : String) (st : Tools.ResState) (requestedLanguage : String) (error : YTError)
    (w : Tools.CacheWrite)
    (hw : w ∈ (Tools.runEnglishFallback fetch videoId st requestedLanguage error).2.writes) :
    w ∈ st.writes ∨ w.language = requestedLanguage ∨ w.language = "en" := by
  unfold Tools.runEnglishFallback at hw
  cases hcc : Tools.getCachedTranscript st videoId "en" with
  | some d =>
    rw [hcc] at hw
    cases hsd : strStartsWith d "Error:" with
    | false =>
      simp [hsd] at hw
      exact Or.inl hw
    | true =>
      simp only [hsd, Bool.true_eq_false, if_false] at hw
      cases hf : fetch videoId "en" with
      | ok s =>
        rw [hf] at hw
        simp only [recordFetchCall_writes] at hw
        rcases setCached_writes_mem _ _ _ _ _ _ hw with h | h
        · exact Or.inl h
        · exact Or.inr (Or.inr h)
      | error ee =>
        rw [hf] at hw
        simp only [recordFetchCall_writes] at hw
        rcases setCached_writes_mem _ _ _ _ _ _ hw with h | h
        · exact Or.inl h
        · exact Or.inr (Or.inl h)
  | none =>
    rw [hcc] at hw
    cases hf : fetch videoId "en" with
    | ok s =>
      rw [hf] at hw
      simp only [recordFetchCall_writes] at hw
      rcases setCached_writes_mem _ _ _ _ _ _ hw with h | h
      · exact Or.inl h
      · exact Or.inr (Or.inr h)
    | error ee =>
      rw [hf] at hw
      simp only [recordFetchCall_writes] at hw
      rcases setCached_writes_mem _ _ _ _ _ _ hw with h | h
      · exact Or.inl h
      · exact Or.inr (Or.inl h)

theorem handleFallbackFailure_writes
    (fetch : String → String → Except YTError String)
    (videoId : String) (st : Tools.ResState) (requestedLanguage : String) (error : YTError)
    (w : Tools.CacheWrite)
    (hw : w ∈ (Tools.handleFallbackFailure fetch videoId st requestedLanguage error).2.writes) :
    w ∈ st.writes ∨ w.language = requestedLanguage ∨ w.language = "en" := by
  unfold Tools.handleFallbackFailure at hw
  split_ifs at hw
  · exact runEnglishFallback_writes fetch videoId st requestedLanguage error w hw
  · rcases setCached_writes_mem _ _ _ _ _ _ hw with h | h
    · exact Or.inl h
    · exact Or.inr (Or.inl h)

theorem getTranscriptWithFallback_writes
    (fetch : String → String → Except YTError String)
    (videoId : String) (st : Tools.ResState) (requestedLanguage : String)
    (w : Tools.CacheWrite)
    (hw : w ∈ (Tools.getTranscriptWithFallback fetch videoId st requestedLanguage).2.writes) :
    w ∈ st.writes ∨ w.language = requestedLanguage ∨ w.language = "en" := by
  unfold Tools.getTranscriptWithFallback at hw
  cases hcc : Tools.getCachedTranscript st videoId requestedLanguage with
  | some c =>
    rw [hcc] at hw
    cases hsc : strStartsWith c "Error:" with
    | true =>
      simp only [hsc, if_true] at hw
      exact handleFallbackFailure_writes fetch videoId st requestedLanguage (.generic c) w hw
    | false =>
      simp [hsc] at hw
      exact Or.inl hw
  | none =>
    rw [hcc] at hw
    cases hf : fetch videoId requestedLanguage with
    | ok t =>
      rw [hf] at hw
      simp only [recordFetchCall_writes] at hw
      rcases setCached_writes_mem _ _ _ _ _ _ hw with h | h
      · exact Or.inl h
      · exact Or.inr (Or.inl h)
    | error e =>
      rw [hf] at hw
      have := handleFallbackFailure_writes fetch videoId
        (Tools.recordFetchCall st videoId requestedLanguage) requestedLanguage e w hw
      simpa [recordFetchCall_writes] using this

theorem autoDetectGo_writes
    (fetch : String → String → Except YTError String) (videoId : String) :
    ∀ (langs : List String) (st : Tools.ResState) (lastE : Option YTError)
      (avail : List String) (w : Tools.CacheWrite),
      w ∈ (Tools.autoDetectGo fetch videoId langs st lastE avail).2.writes →
      w ∈ st.writes ∨ w.language ∈ langs := by
  intro langs
  induction langs with
  | nil =>
    intro st lastE avail w hw
    simp [Tools.autoDetectGo] at hw
    exact Or.inl hw
  | cons lang rest ih =>
    intro st lastE avail w hw
    cases hcc : Tools.getCachedTranscript st videoId lang with
    | some c =>
      rw [Tools.autoDetectGo, hcc] at hw
      cases hsc : strStartsWith c "Error:" with
      | false =>
        simp [hsc] at hw
        exact Or.inl hw
      | true =>
        simp only [hsc, Bool.true_eq_false, if_false] at hw
        cases hf : fetch videoId lang with
        | ok t =>
          rw [hf] at hw
          simp only [recordFetchCall_writes] at hw
          rcases setCached_writes_mem _ _ _ _ _ _ hw with h | h
          · exact Or.inl h
          · right; rw [h]; exact List.mem_cons_self lang rest
        | error e =>
          rw [hf] at hw
          cases hle : Tools.isLanguageRelatedError e with
          | false =>
            simp only [hle, if_true] at hw
            exact Or.inl hw
          | true =>
            simp only [hle, Bool.true_eq_false, if_false] at hw
            rcases ih _ _ _ w hw with h | h
            · exact Or.inl h
            · right; exact List.mem_cons_of_mem lang h
    | none =>
      rw [Tools.autoDetectGo, hcc] at hw
      cases hf : fetch videoId lang with
      | ok t =>
        rw [hf] at hw
        simp only [recordFetchCall_writes] at hw
        rcases setCached_writes_mem _ _ _ _ _ _ hw with h | h
        · exact Or.inl h
        · right; rw [h]; exact List.mem_cons_self lang rest
      | error e =>
        rw [hf] at hw
        cases hle : Tools.isLanguageRelatedError e with
        | false =>
          simp only [hle, if_true] at hw
          exact Or.inl hw
        | true =>
          simp only [hle, Bool.true_eq_false, if_false] at hw
          rcases ih _ _ _ w hw with h | h
          · exact Or.inl h
          · right; exact List.mem_cons_of_mem lang h

/-- C9: over every execution of the resolution (both modes, every success
and failure path), no new cache entry is written under the language key
`auto`: every new write is under a concrete language — an auto-detect
candidate, the requested language, or `en`. -/
theorem C9_no_write_under_auto_key
    (fetch : String → String → Except YTError String)
    (url language : String) (st : Tools.ResState) (w : Tools.CacheWrite)
    (hw : w ∈ (Tools.getTranscript fetch url st language).2.writes) :
    w ∈ st.writes ∨ (w.language ≠ "auto" ∧
      (w.language ∈ Tools.languagesToTry ∨ w.language = language ∨ w.language = "en")) := by
  unfold Tools.getTranscript at hw
  by_cases hv : isValidYouTubeUrl url = false
  · rw [if_pos hv] at hw
    exact Or.inl hw
  · rw [if_neg hv] at hw
    cases he : extractVideoId (normalizeYouTubeUrl url) with
    | none =>
      rw [he] at hw
      exact Or.inl hw
    | some videoId =>
      rw [he] at hw
      by_cases ha : language = "auto"
      · subst ha
        have hw2 : w ∈ (Tools.getTranscriptWithAutoDetection fetch videoId st).2.writes := hw
        rcases autoDetectGo_writes fetch videoId Tools.languagesToTry st none [] w hw2 with h | h
        · exact Or.inl h
        · refine Or.inr ⟨?_, Or.inl h⟩
          intro hx
          rw [hx] at h
          exact absurd h (by decide)
      · have hw2 : w ∈ (Tools.getTranscriptWithFallback fetch videoId st language).2.writes := by
          simp only [if_neg ha] at hw
          exact hw
        rcases getTranscriptWithFallback_writes fetch videoId st language w hw2 with h | h | h
        · exact Or.inl h
        · exact Or.inr ⟨by rw [h]; exact ha, Or.inr (Or.inl h)⟩
        · exact Or.inr ⟨by rw [h]; decide, Or.inr (Or.inr h)⟩

def fetchOkHola : String → String → Except YTError String := fun _ _ => .ok "hola"

/-- Witness for C9: a concrete run writing one entry under `tr`. -/
theorem C9_witness :
    ({ videoId := "vid", language := "tr", data := "hola", isErrorEntry := false,
       ttlSeconds := Tools.SUCCESSFUL_TRANSCRIPT_TTL_SECONDS } : Tools.CacheWrite) ∈
        stEmpty.writes ∨
    (({ videoId := "vid", language := "tr", data := "hola", isErrorEntry := false,
        ttlSeconds := Tools.SUCCESSFUL_TRANSCRIPT_TTL_SECONDS } : Tools.CacheWrite).language ≠
        "auto" ∧
      (({ videoId := "vid", language := "tr", data := "hola", isErrorEntry := false,
          ttlSeconds := Tools.SUCCESSFUL_TRANSCRIPT_TTL_SECONDS } : Tools.CacheWrite).language ∈
            Tools.languagesToTry ∨
        ({ videoId := "vid", language := "tr", data := "hola", isErrorEntry := false,
           ttlSeconds := Tools.SUCCESSFUL_TRANSCRIPT_TTL_SECONDS } : Tools.CacheWrite).language =
          "tr" ∨
        ({ videoId := "vid", language := "tr", data := "hola", isErrorEntry := false,
           ttlSeconds := Tools.SUCCESSFUL_TRANSCRIPT_TTL_SECONDS } : Tools.CacheWrite).language =
          "en")) := by
  exact C9_no_write_under_auto_key fetchOkHola "https://youtu.be/vid" "tr" stEmpty _ (by decide)

theorem fallback_miss_refetches
    (fetch : String → String → Except YTError String)
    (videoId : String) (st2 : Tools.ResState) (requestedLanguage : String) (e : YTError)
    (hmiss2 : Tools.getCachedTranscript st2 videoId requestedLanguage = none)
    (hf : fetch videoId requestedLanguage = .error e)
    (hlr : Tools.isLanguageRelatedError e = true)
    (hreq : requestedLanguage ≠ "en") :
    ∃ extra, (Tools.getTranscriptWithFallback fetch videoId st2 requestedLanguage).2.calls =
      st2.calls ++ (videoId, requestedLanguage) :: extra := by
  have hstep : Tools.getTranscriptWithFallback fetch videoId st2 requestedLanguage =
      Tools.handleFallbackFailure fetch videoId
        (Tools.recordFetchCall st2 videoId requestedLanguage) requestedLanguage e := by
    simp [Tools.getTranscriptWithFallback, hmiss2, hf]
  have hred : Tools.handleFallbackFailure fetch videoId
      (Tools.recordFetchCall st2 videoId requestedLanguage) requestedLanguage e =
      Tools.runEnglishFallback fetch videoId
        (Tools.recordFetchCall st2 videoId requestedLanguage) requestedLanguage e := by
    simp [Tools.handleFallbackFailure, hlr, hreq]
  obtain ⟨extra, hx, _⟩ := runEnglishFallback_calls fetch videoId
    (Tools.recordFetchCall st2 videoId requestedLanguage) requestedLanguage e
  refine ⟨extra, ?_⟩
  rw [hstep, hred, hx, recordFetchCall_calls]
  simp

/-- C10: in exact-language mode, when the requested language misses the
cache and fails with a language-related error and the English fallback
fetch succeeds, only the key for `en` is written: the run's single cache
write is under `en`, the requested language's key is still absent
afterwards, and a repeated identical request performs the upstream fetch
for the requested language again. -/
theorem C10_fallback_caches_only_under_en
    (fetch : String → String → Except YTError String)
    (videoId requestedLanguage t : String) (e : YTError) (st : Tools.ResState)
    (hb : st.hasCache = true) (hw : st.writes = []) (hc : st.calls = [])
    (hmiss : Tools.getCachedTranscript st videoId requestedLanguage = none)
    (hmissEn : Tools.getCachedTranscript st videoId "en" = none)
    (hreq : requestedLanguage ≠ "en")
    (hf : fetch videoId requestedLanguage = .error e)
    (hlr : Tools.isLanguageRelatedError e = true)
    (hen : fetch videoId "en" = .ok t) :
    (Tools.getTranscriptWithFallback fetch videoId st requestedLanguage).2.writes =
      [{ videoId := videoId, language := "en", data := t, isErrorEntry := false,
         ttlSeconds := Tools.SUCCESSFUL_TRANSCRIPT_TTL_SECONDS }] ∧
    Tools.getCachedTranscript
      (Tools.getTranscriptWithFallback fetch videoId st requestedLanguage).2
      videoId requestedLanguage = none ∧
    ∃ extra, (Tools.getTranscriptWithFallback fetch videoId
        (Tools.getTranscriptWithFallback fetch videoId st requestedLanguage).2
        requestedLanguage).2.calls =
      (Tools.getTranscriptWithFallback fetch videoId st requestedLanguage).2.calls ++
        (videoId, requestedLanguage) :: extra := by
  have hlk : List.lookup (videoId, requestedLanguage) st.cache = none := by
    have h := hmiss
    unfold Tools.getCachedTranscript at h
    rwa [if_pos hb] at h
  have hlkEn : List.lookup (videoId, "en") st.cache = none := by
    have h := hmissEn
    unfold Tools.getCachedTranscript at h
    rwa [if_pos hb] at h
  have hrun1 : Tools.getTranscriptWithFallback fetch videoId st requestedLanguage =
      (.ok (Tools.englishFallbackNote requestedLanguage ++ t),
        { hasCache := st.hasCache,
          cache := ((videoId, "en"), t) :: st.cache,
          writes := [⟨videoId, "en", t, false, Tools.SUCCESSFUL_TRANSCRIPT_TTL_SECONDS⟩],
          calls := [(videoId, requestedLanguage), (videoId, "en")] }) := by
    simp [Tools.getTranscriptWithFallback, Tools.getCachedTranscript, hlk, hlkEn, hf,
      Tools.handleFallbackFailure, hlr, hreq, Tools.runEnglishFallback, hen,
      Tools.recordFetchCall, Tools.setCachedTranscript, hb, hw, hc]
  have hmiss2 : Tools.getCachedTranscript
      (Tools.getTranscriptWithFallback fetch videoId st requestedLanguage).2
      videoId requestedLanguage = none := by
    rw [hrun1]
    unfold Tools.getCachedTranscript
    rw [if_pos hb]
    have hbeq : ((videoId, requestedLanguage) == (videoId, "en")) = false := by
      simp [hreq]
    simp [List.lookup, hbeq, hlk]
  refine ⟨by rw [hrun1], hmiss2, ?_⟩
  exact fallback_miss_refetches fetch videoId _ requestedLanguage e hmiss2 hf hlr hreq

def fetchTrFailsEnHello : String → String → Except YTError String := fun _ lang =>
  if lang = "tr" then .error (.generic "No transcript found for this language") else .ok "hello"

/-- Witness for C10 at a concrete Turkish request with English fallback. -/
theorem C10_witness :
    (Tools.getTranscriptWithFallback fetchTrFailsEnHello "vid" stEmpty "tr").2.writes =
      [{ videoId := "vid", language := "en", data := "hello", isErrorEntry := false,
         ttlSeconds := Tools.SUCCESSFUL_TRANSCRIPT_TTL_SECONDS }] ∧
    Tools.getCachedTranscript
      (Tools.getTranscriptWithFallback fetchTrFailsEnHello "vid" stEmpty "tr").2
      "vid" "tr" = none := by
  have h := C10_fallback_caches_only_under_en fetchTrFailsEnHello "vid" "tr" "hello"
    (.generic "No transcript found for this language") stEmpty rfl rfl rfl
    (by decide) (by decide) (by decide) (by decide) (by decide) (by decide)
  exact ⟨h.1, h.2.1⟩
